import Mathlib

set_option maxRecDepth 8000

/-!
Verification development for the entsoe-py client library
(src/entsoe/entsoe.py).  The Python source is shallowly embedded:
pure string manipulation becomes Lean functions on `String`/`List Char`,
HTTP responses become a record of the fields the code inspects,
exceptions become `Except`/sum results, and pandas time-indexed tables
become association lists from timestamps to values.
-/

deriving instance DecidableEq for Except

namespace Entsoe

/-! ## String helpers mirroring the Python primitives used by the source -/

/-- Test whether `pat` occurs at the head of `cs`. -/
def leadMatch : List Char → List Char → Bool
  | [], _ => true
  | _ :: _, [] => false
  | p :: ps, c :: cs => p = c && leadMatch ps cs

/-- Scan `cs` for an occurrence of `pat` at any position. -/
def hasSubstr : List Char → List Char → Bool
  | [], pat => pat.isEmpty
  | c :: rest, pat => leadMatch pat (c :: rest) || hasSubstr rest pat

/-- Embedding of the Python substring test `needle in haystack`. -/
def strContains (hay pat : String) : Bool :=
  hasSubstr hay.toList pat.toList

/-- Embedding of the Python call `s.split` on a single space: split at every space
character, keeping empty pieces between consecutive spaces. -/
def splitSpaces (cs : List Char) : List (List Char) :=
  cs.foldr
    (fun c acc =>
      if c = ' ' then [] :: acc
      else
        match acc with
        | [] => [[c]]
        | w :: ws => (c :: w) :: ws)
    [[]]

/-- Token list of a message, as produced by splitting `error_text` on spaces in Python. -/
def spaceTokens (s : String) : List String :=
  (splitSpaces s.toList).map (fun w => String.mk w)

/-- Embedding of Python negative indexing `xs[-k]`: `none` models the
`IndexError` raised when the list is shorter than `k`. -/
def negTok (xs : List String) (k : Nat) : Option String :=
  if k ≤ xs.length then some (xs.getD (xs.length - k) "") else none

/-! ## EntsoeRawClient._base_request (entsoe.py lines 66-129)

An HTTP response is embedded as the record of the fields `_base_request`
inspects: whether `raise_for_status` succeeds, the declared content-type
header, the body text, and the list of contents of the `<text>` elements
that BeautifulSoup finds in the body (the HTML parsing itself is the
out-of-scope collaborator; its output is a field of the record). -/

structure HttpResponse where
  statusOk : Bool
  contentType : String
  body : String
  textElems : List String
  deriving DecidableEq, Repr

/-- Exceptions that `_base_request` can raise.  `paginationError` carries
the extracted requested/allowed token strings; `httpError` is the original
`requests.HTTPError` re-raised; `pyIndexError` models the `IndexError`
Python raises when a negative token index is out of range. -/
inductive ReqError where
  | noMatchingData
  | invalidBusinessParameter
  | invalidPSRType
  | paginationError (requested allowed : String)
  | httpError
  | pyIndexError
  deriving DecidableEq, Repr

def noDataPhrase : String := "No matching data found"
def dependencyPhrase : String := "check you request against dependency tables"
def areaPhrase : String := "is not valid for this area"
def docLimitPhrase : String := "amount of requested data exceeds allowed limit"
def offsetLimitPhrase : String :=
  "requested data to be gathered via the offset parameter exceeds the allowed limit"

/-- Embedding of the error-status branch of `_base_request` (lines 96-120):
classify the content of the first `<text>` element by ordered phrase matching;
with no `<text>` element the original HTTP error propagates. -/
def classifyErrorBody (textElems : List String) : ReqError :=
  match textElems with
  | [] => .httpError
  | t :: _ =>
    if strContains t noDataPhrase then .noMatchingData
    else if strContains t dependencyPhrase then .invalidBusinessParameter
    else if strContains t areaPhrase then .invalidPSRType
    else if strContains t docLimitPhrase then
      let toks := spaceTokens t
      match negTok toks 2, negTok toks 5 with
      | some requested, some allowed => .paginationError requested allowed
      | _, _ => .pyIndexError
    else if strContains t offsetLimitPhrase then
      let toks := spaceTokens t
      match negTok toks 9, negTok toks 30 with
      | some requested, some allowed =>
          .paginationError requested (allowed.dropRight 2)
      | _, _ => .pyIndexError
    else .httpError

/-- Embedding of `_base_request` (lines 93-129): on an error status the body
is classified; on success a 200-with-no-data body is reclassified as
`NoMatchingDataError`, but only when the content-type is exactly
`application/xml`. -/
def baseRequest (r : HttpResponse) : Except ReqError HttpResponse :=
  if r.statusOk then
    if r.contentType = "application/xml" && strContains r.body noDataPhrase then
      .error .noMatchingData
    else .ok r
  else .error (classifyErrorBody r.textElems)

/-! ## EntsoeRawClient._datetime_to_str (entsoe.py lines 131-151)

A `pd.Timestamp` is embedded as its wall-clock value in minutes since
1970-01-01 00:00 of the proleptic Gregorian calendar, together with an
optional fixed timezone offset in minutes east of UTC (`none` models a
timezone-naive timestamp; `some 0` models `pytz.UTC`).  The civil-date
fields of `strftime` are recovered with the standard days-to-civil
conversion; pandas timestamps live in years 1677-2262, where `%Y` is the
four-digit zero-padded year. -/

structure PdTimestamp where
  wall : Int
  tzOffset : Option Int
  deriving DecidableEq, Repr

/-- Decimal digit character of `n % 10`. -/
def digitChar (n : Nat) : Char := Char.ofNat (48 + n % 10)

/-- Two-digit zero-padded decimal rendering (faithful for `n < 100`). -/
def pad2 (n : Nat) : String := String.mk [digitChar (n / 10), digitChar n]

/-- Four-digit zero-padded decimal rendering (faithful for `n < 10000`). -/
def pad4 (n : Nat) : String :=
  String.mk [digitChar (n / 1000), digitChar (n / 100), digitChar (n / 10), digitChar n]

/-- Civil date (year, month, day) of a day count relative to 1970-01-01,
in the proleptic Gregorian calendar. -/
def civilOfDays (z0 : Int) : Int × Int × Int :=
  let z := z0 + 719468
  let era := z / 146097
  let doe := z % 146097
  let yoe := (doe - doe / 1460 + doe / 36524 - doe / 146096) / 365
  let doy := doe - (365 * yoe + yoe / 4 - yoe / 100)
  let mp := (5 * doy + 2) / 153
  let d := doy - (153 * mp + 2) / 5 + 1
  let m := if mp < 10 then mp + 3 else mp - 9
  (yoe + era * 400 + (if m ≤ 2 then 1 else 0), m, d)

/-- Embedding of `dtm.strftime` with format `%Y%m%d%H00` on a wall-clock minute count:
the calendar fields of the timestamp followed by the literal minute field
`00`, which discards any sub-hour precision. -/
def strftimeYmdH00 (wall : Int) : String :=
  let day := wall / 1440
  let minuteOfDay := wall % 1440
  let c := civilOfDays day
  pad4 c.1.toNat ++ pad2 c.2.1.toNat ++ pad2 c.2.2.toNat ++
    pad2 (minuteOfDay / 60).toNat ++ "00"

/-- Embedding of `dtm.tz_convert("UTC")` for an aware timestamp: the wall
clock moves by the offset, the instant is unchanged. -/
def tzConvertUTC (t : PdTimestamp) : PdTimestamp :=
  match t.tzOffset with
  | none => t
  | some off => ⟨t.wall - off, some 0⟩

/-- Embedding of `_datetime_to_str` (lines 147-151): convert to UTC only
when the timestamp is timezone-aware and not already UTC, then format. -/
def datetimeToStr (t : PdTimestamp) : String :=
  let t' :=
    match t.tzOffset with
    | none => t
    | some off => if off = 0 then t else tzConvertUTC t
  strftimeYmdH00 t'.wall

/-! ## EntsoeRawClient.__init__ (entsoe.py lines 38-64)

The `requests.Session` collaborator is embedded as an opaque token; the
session the constructor creates when none is supplied is `freshSession`.
`api_key = None` is `none`; any other value is `some key`. -/

structure SessionTok where
  ident : Nat
  deriving DecidableEq, Repr

/-- The `requests.Session()` created when no session is supplied. -/
def freshSession : SessionTok := ⟨0⟩

structure ClientState where
  apiKey : String
  session : SessionTok
  retryCount : Int
  retryDelay : Int
  proxies : Option String
  timeout : Option Int
  deriving DecidableEq, Repr

inductive InitError where
  | typeError (msg : String)
  deriving DecidableEq, Repr

/-- Embedding of `EntsoeRawClient.__init__`: a `None` api_key raises
`TypeError` before anything else; otherwise the key is stored and a fresh
session is created when none is supplied. -/
def clientInit (apiKey : Option String) (session : Option SessionTok)
    (retryCount retryDelay : Int) (proxies : Option String)
    (timeoutArg : Option Int) : Except InitError ClientState :=
  match apiKey with
  | none => .error (.typeError "API key cannot be None")
  | some key =>
    let s := match session with
      | none => freshSession
      | some s => s
    .ok ⟨key, s, retryCount, retryDelay, proxies, timeoutArg⟩

/-! ## Time-indexed tables of the Pandas client

For the result-assembly code a timestamp is embedded as a calendar year
plus the hour within that year; this is exact for the parts of pandas the
source uses (`truncate`, the anchored `YearBegin`/`YearEnd` offsets, and
row comparisons).  `tz_convert` relabels timestamps without moving the
instant, so on this absolute representation it is the identity and is
not written out in the pipelines below.  A series is an association list
from timestamps to integer values. -/

structure Ts where
  year : Int
  hourOfYear : Nat
  deriving DecidableEq, Repr

/-- Leap year test of the Gregorian calendar. -/
def isLeap (y : Int) : Bool := (y % 4 = 0 && y % 100 ≠ 0) || y % 400 = 0

/-- Hours in a calendar year. -/
def hoursInYear (y : Int) : Nat := if isLeap y then 8784 else 8760

/-- Chronological order on embedded timestamps. -/
def tsLe (a b : Ts) : Bool :=
  a.year < b.year || (a.year = b.year && a.hourOfYear ≤ b.hourOfYear)

/-- Strict chronological order on embedded timestamps. -/
def tsLt (a b : Ts) : Bool :=
  a.year < b.year || (a.year = b.year && a.hourOfYear < b.hourOfYear)

abbrev Series := List (Ts × Int)

/-- Embedding of `df.truncate(before=b, after=a)`: keep the rows whose
index lies in the closed interval `[b, a]`. -/
def truncateSeries (before after : Ts) (s : Series) : Series :=
  s.filter (fun r => tsLe before r.1 && tsLe r.1 after)

/-- Embedding of the anchored pandas offset `ts - YearBegin()`: the
time-of-day is preserved and the date rolls back to January 1st of the
same year, or of the previous year when the date is already January 1st
(the anchor test looks only at the date, never at the time). -/
def subYearBegin (t : Ts) : Ts :=
  if t.hourOfYear < 24 then ⟨t.year - 1, t.hourOfYear⟩
  else ⟨t.year, t.hourOfYear % 24⟩

/-- Embedding of the anchored pandas offset `ts + YearEnd()`: the
time-of-day is preserved and the date rolls forward to December 31st of
the same year, or of the next year when the date is already December 31st
(the anchor test looks only at the date, never at the time). -/
def addYearEnd (t : Ts) : Ts :=
  if t.hourOfYear < hoursInYear t.year - 24 then
    ⟨t.year, hoursInYear t.year - 24 + t.hourOfYear % 24⟩
  else ⟨t.year + 1, hoursInYear (t.year + 1) - 24 + t.hourOfYear % 24⟩

/-- Embedding of the result assembly of `query_day_ahead_prices`
(entsoe.py lines 1061-1067): the parsed series is truncated to the
requested `[start, end]` window of the caller.  The parser is the out-of-scope
collaborator, so the parsed series is the argument. -/
def queryDayAheadPricesAssemble (parsed : Series) (start finish : Ts) : Series :=
  truncateSeries start finish parsed

/-- Embedding of the result assembly of `query_installed_generation_capacity`
(entsoe.py lines 1239-1247): the parsed series is truncated to
`start - YearBegin()` and `end + YearEnd()`, not to the requested window. -/
def queryInstalledGenerationCapacityAssemble (parsed : Series) (start finish : Ts) : Series :=
  truncateSeries (subYearBegin start) (addYearEnd finish) parsed

/-- Unavailability row: document index timestamp plus the `start`/`end`
columns of the outage event. -/
structure UnavRow where
  idx : Ts
  evStart : Ts
  evEnd : Ts
  deriving DecidableEq, Repr

/-- Embedding of the row filter of `_query_unavailability`
(entsoe.py line 1769): keep a row when its start column is before `end`
or its end column is after `start` (a disjunction).
The index itself is not constrained. -/
def queryUnavailabilityFilter (rows : List UnavRow) (start finish : Ts) : List UnavRow :=
  rows.filter (fun r => tsLt r.evStart finish || tsLt start r.evEnd)

/-! ## Year splitting (the `year_limited` decorator)

The decorator itself lives in `entsoe/decorators.py`, which is not part
of the sources; only its application sites are.  It is therefore
modelled from the spec. -/

/-- January 1st 00:00 of a calendar year. -/
def yearStart (y : Int) : Ts := ⟨y, 0⟩

/-- Modelled from the spec: number of calendar-year sub-windows covering
`[start, end)` — one per calendar year the half-open window intersects. -/
def spannedYears (start finish : Ts) : Nat :=
  if finish.hourOfYear = 0 then (finish.year - start.year).toNat
  else (finish.year - start.year).toNat + 1

/-- Splitting worker: `fuel` is the number of year boundaries still to be
inserted before the final sub-window. -/
def yearBlocksAux : Nat → Ts → Ts → List (Ts × Ts)
  | 0, s, e => [(s, e)]
  | n + 1, s, e => (s, yearStart (s.year + 1)) :: yearBlocksAux n (yearStart (s.year + 1)) e

/-- Modelled from the spec (the missing `year_limited` decorator of
`entsoe/decorators.py`): split the window into consecutive
calendar-year-aligned sub-windows covering `[start, end)`; the first
sub-window starts at `start`, the last ends at `end`, interior boundaries
are January 1st 00:00. -/
def yearBlocks (start finish : Ts) : List (Ts × Ts) :=
  yearBlocksAux (spannedYears start finish - 1) start finish

/-- Modelled from the spec: the year-splitting orchestrator issues one
sub-query per block of `yearBlocks` in chronological order and
concatenates the parsed fragments. -/
def yearLimitedFetch (fetch : Ts → Ts → Series) (start finish : Ts) : Series :=
  ((yearBlocks start finish).map (fun b => fetch b.1 b.2)).flatten

/-- Consecutive sub-windows: each block starts where the previous ended. -/
def blocksChained : List (Ts × Ts) → Bool
  | [] => true
  | [_] => true
  | a :: b :: rest => (a.2 = b.1 : Bool) && blocksChained (b :: rest)

/-! ## Offset pagination

The `paginated` / `documents_limited` decorators also live in the missing
`entsoe/decorators.py`; the pagination loop is modelled from the spec. -/

/-- Modelled from the spec: the classified Transport answer for one page
request.  Following the pagination test of the spec, the rate-limited
outcome carries the parsed fragment of the page alongside the requested/allowed
document counts, so that every issued page contributes a fragment to the
merge. -/
inductive PageOutcome where
  | success (frag : Series)
  | rateLimited (requested allowed : Nat) (frag : Series)
  deriving DecidableEq, Repr

/-- Result of the pagination loop: the offsets issued with the fragments
accumulated, a hard pagination failure on an unrecognized allowed count,
or exhaustion of the modelling fuel. -/
inductive PagResult where
  | done (offsets : List Nat) (frags : List Series)
  | limitMismatch (requested allowed : Nat)
  | fuelOut
  deriving DecidableEq, Repr

/-- Modelled from the spec (the missing pagination decorators): issue the
page at `offset`; on `RateLimited` whose allowed count equals the page
ceiling of the report, advance the offset by the ceiling and continue against the
same window; on any other allowed count fail hard; stop at the first
non-rate-limited outcome.  `fuel` bounds the recursion only for the
embedding; the spec places no bound of its own. -/
def paginateGo (transport : Nat → PageOutcome) (ceiling : Nat) :
    Nat → Nat → PagResult
  | 0, _ => .fuelOut
  | fuel + 1, offset =>
    match transport offset with
    | .success f => .done [offset] [f]
    | .rateLimited req alw f =>
      if alw = ceiling then
        match paginateGo transport ceiling fuel (offset + ceiling) with
        | .done os fs => .done (offset :: os) (f :: fs)
        | other => other
      else .limitMismatch req alw

/-- Modelled from the spec: one paginated logical query with page ceiling
100 (the `documents_limited(100)` configuration of
`query_contracted_reserve_prices`), returning the issued offsets and the
merged fragments. -/
def queryContractedReservePricesPaged (transport : Nat → PageOutcome)
    (fuel : Nat) : Option (List Nat × Series) :=
  match paginateGo transport 100 fuel 0 with
  | .done os fs => some (os, fs.flatten)
  | _ => none

/-! ## EntsoePandasClient.query_import (entsoe.py lines 1914-1938) -/

/-- Errors of the neighbour loop: the two exception kinds a sub-query can
raise, plus the `ValueError` that `pd.concat` raises when every neighbour
was skipped and there is nothing to concatenate. -/
inductive FlowErr where
  | noMatchingData
  | other (code : Nat)
  | emptyConcat
  deriving DecidableEq, Repr

/-- Embedding of the neighbour loop of `query_import`: a
`NoMatchingDataError` from the cross-border-flows sub-query makes the loop
`continue` with the next neighbour; any other error propagates; a success
becomes a column named after the neighbour. -/
def collectImports (flows : String → Except FlowErr Series) :
    List String → Except FlowErr (List (String × Series))
  | [] => .ok []
  | n :: ns =>
    match flows n with
    | .error .noMatchingData => collectImports flows ns
    | .error e => .error e
    | .ok ser =>
      match collectImports flows ns with
      | .ok cols => .ok ((n, ser) :: cols)
      | .error e => .error e

/-- Value of a series at a timestamp, `none` standing for the NaN that
`pd.concat` inserts when the timestamp is missing from this column. -/
def lookupTs (ser : Series) (t : Ts) : Option Int :=
  (ser.find? (fun r => r.1 = t)).map Prod.snd

/-- Index of the frame built by `pd.concat(imports, axis=1)`: the union of
the column indexes. -/
def unionIndex (cols : List (String × Series)) : List Ts :=
  ((cols.map (fun c => c.2.map Prod.fst)).flatten).dedup

/-- Embedding of the per-column test `(df != 0).any(axis=0)` on the
concat-aligned frame: a present value passes when it is non-zero, and a
missing timestamp is NaN, for which `NaN != 0` is `True`. -/
def colKeptAligned (idx : List Ts) (ser : Series) : Bool :=
  idx.any (fun t =>
    match lookupTs ser t with
    | some v => v ≠ 0
    | none => true)

/-- Embedding of `df.loc[:, (df != 0).any(axis=0)]` after
`pd.concat(imports, axis=1)`: drop a column only when it covers the whole
aligned index and every value is zero. -/
def dropAllZeroColsAligned (cols : List (String × Series)) : List (String × Series) :=
  cols.filter (fun c => colKeptAligned (unionIndex cols) c.2)

/-- Embedding of `query_import`: collect the per-neighbour columns,
concatenate (raising `ValueError` when every neighbour was skipped), drop
the columns that are all-zero on the aligned frame, then truncate to the
requested window (the order in the code: the zero test runs before
truncation).  A column is kept as its own pairs; the NaN fill of the
aligned frame is only consulted by the zero test. -/
def queryImport (flows : String → Except FlowErr Series) (neighbours : List String)
    (start finish : Ts) : Except FlowErr (List (String × Series)) :=
  match collectImports flows neighbours with
  | .error e => .error e
  | .ok [] => .error .emptyConcat
  | .ok (c :: cs) =>
    .ok ((dropAllZeroColsAligned (c :: cs)).map
      (fun col => (col.1, truncateSeries start finish col.2)))

/-- Test whether a neighbour contributed a column: its sub-query returned
data rather than raising. -/
def okNeighbour (flows : String → Except FlowErr Series) (n : String) : Bool :=
  match flows n with
  | .ok _ => true
  | .error _ => false

/-! ## Observations on block lists, used to state the year-splitting claim -/

/-- Start of the first sub-window, when any. -/
def headFst : List (Ts × Ts) → Option Ts
  | [] => none
  | p :: _ => some p.1

/-- End of the last sub-window, when any. -/
def lastSnd : List (Ts × Ts) → Option Ts
  | [] => none
  | [p] => some p.2
  | _ :: q :: rest => lastSnd (q :: rest)

/-- Every sub-window starts on a January 1st 00:00. -/
def allStartsAligned (bs : List (Ts × Ts)) : Bool :=
  bs.all (fun p => p.1.hourOfYear = 0)

/-- Every sub-window except the first starts on a January 1st 00:00. -/
def startsAlignedButFirst (bs : List (Ts × Ts)) : Bool :=
  allStartsAligned (bs.drop 1)

/-- Every sub-window except the last ends on a January 1st 00:00. -/
def endsAlignedButLast : List (Ts × Ts) → Bool
  | [] => true
  | [_] => true
  | p :: q :: rest => (p.2.hourOfYear = 0 : Bool) && endsAlignedButLast (q :: rest)

/-! ## Simulated transport for the pagination claim -/

def simFragA : Series := [(⟨2021, 0⟩, 11)]
def simFragB : Series := [(⟨2021, 1⟩, 22)]
def simFragC : Series := [(⟨2021, 2⟩, 33)]

/-- Simulated Transport of the pagination test of the spec: offset 0 and
offset 100 hit the document-count limit, offset 200 succeeds. -/
def simTransport (offset : Nat) : PageOutcome :=
  if offset = 0 then .rateLimited 250 100 simFragA
  else if offset = 100 then .rateLimited 150 100 simFragB
  else .success simFragC

/-! ## Concrete neighbour answers for the import claim -/

/-- Flows with one no-data neighbour, one neighbour with a non-zero
series and one neighbour whose series is identically zero. -/
def witnessFlows : String → Except FlowErr Series := fun n =>
  if n = "DE" then .error .noMatchingData
  else if n = "FR" then .ok [(⟨2020, 1⟩, 3)]
  else if n = "NL" then .ok [(⟨2020, 2⟩, 0)]
  else .ok []

/-- Flows whose two neighbours share one timestamp, so the all-zero
neighbour NL covers the whole aligned index and is genuinely dropped. -/
def witnessFlows2 : String → Except FlowErr Series := fun n =>
  if n = "FR" then .ok [(⟨2020, 1⟩, 3)]
  else if n = "NL" then .ok [(⟨2020, 1⟩, 0)]
  else .error .noMatchingData

/-! ## Concrete provider messages used by the error-handling claims -/

/-- Document-count limit message placing the numeric counts at the token
positions the code reads: 150 second-to-last, 100 fifth-to-last. -/
def docMsgGood : String :=
  "The amount of requested data exceeds allowed limit. Allowed: 100 documents, requested 150 documents"

/-- Document-count limit message with the ending quoted by the spec,
containing an allowed value of 100: the numeric counts do not sit at the
token positions the code reads. -/
def docMsgBad : String :=
  "The amount of requested data exceeds allowed limit, allowed 100, query requested 150 documents and cannot be fulfilled as is."

/-- Offset-variant limit message with 47 tokens, placing 750 ninth-to-last
and the allowed count (with two trailing junk characters) thirtieth-to-last. -/
def offMsgGood : String :=
  "The amount of requested data to be gathered via the offset parameter exceeds the allowed limit of 200.. We kindly suggest limiting the requested time window so that the query returns fewer items in total because this request 750 documents and this cannot be fulfilled as is."

/-- Error body containing both the no-data phrase and the
dependency-tables phrase. -/
def bothPhrasesMsg : String :=
  "No matching data found and please check you request against dependency tables"

/-- Reduction of `baseRequest` on an error-status response. -/
theorem baseRequest_on_error (ct body : String) (tes : List String) :
    baseRequest ⟨false, ct, body, tes⟩ = .error (classifyErrorBody tes) := rfl

/-! ## Claim theorems -/

/-- C3: on an HTTP 200 response, `_base_request` raises
`NoMatchingDataError` exactly when the content-type header equals
`application/xml` and the body contains the no-data phrase; a success
response of any other content kind is returned unchanged, never
text-scanned. -/
theorem c3_success_nodata_scan_iff_xml (r : HttpResponse) (h : r.statusOk = true) :
    (baseRequest r = .error .noMatchingData ↔
      (r.contentType = "application/xml" ∧ strContains r.body noDataPhrase = true))
    ∧ (r.contentType ≠ "application/xml" → baseRequest r = .ok r) := by
  constructor
  · unfold baseRequest
    rw [h]
    by_cases hc : r.contentType = "application/xml" && strContains r.body noDataPhrase
    · simp only [hc, if_true, if_pos]
      simp only [Bool.and_eq_true, decide_eq_true_eq] at hc
      simp [hc]
    · simp only [hc, Bool.false_eq_true, if_false, if_true]
      constructor
      · intro habs
        exact absurd habs (by simp)
      · intro ⟨h1, h2⟩
        exact absurd (by simp [h1, h2]) hc
  · intro hne
    unfold baseRequest
    rw [h]
    have : (r.contentType = "application/xml" && strContains r.body noDataPhrase) = false := by
      simp [hne]
    simp [this]

/-- C3 witness: an XML success body with the phrase is reclassified, a ZIP
success body with the phrase is returned unchanged. -/
theorem c3_witness :
    baseRequest ⟨true, "application/xml", "<xml>No matching data found</xml>", []⟩ =
      .error .noMatchingData
    ∧ baseRequest ⟨true, "application/zip", "No matching data found", []⟩ =
      .ok ⟨true, "application/zip", "No matching data found", []⟩ := by
  refine ⟨?_, ?_⟩
  · exact (c3_success_nodata_scan_iff_xml
      ⟨true, "application/xml", "<xml>No matching data found</xml>", []⟩ rfl).1.mpr
      ⟨rfl, by decide⟩
  · exact (c3_success_nodata_scan_iff_xml
      ⟨true, "application/zip", "No matching data found", []⟩ rfl).2 (by decide)

/-- C4 counterexample: a structured error body containing both the no-data
phrase and the dependency-tables phrase raises `NoMatchingDataError`, not
`InvalidBusinessParameterError`, although it contains the
dependency-tables phrase — the phrase checks are ordered, so the claimed
per-phrase mapping fails on bodies matching two phrases. -/
theorem c4_counterexample :
    strContains bothPhrasesMsg dependencyPhrase = true
    ∧ baseRequest ⟨false, "application/xml", bothPhrasesMsg, [bothPhrasesMsg]⟩ =
        .error .noMatchingData := by
  constructor
  · decide
  · rw [baseRequest_on_error]
    have h : classifyErrorBody [bothPhrasesMsg] = .noMatchingData := by decide
    rw [h]

/-- C4 amended: the recognized phrases are checked in a fixed order
(no-data, dependency-tables, invalid-area, document-limit, offset-limit)
and the first matching phrase determines the raised error; an error body
with no text element, or matching no phrase, re-raises the original HTTP
error. -/
theorem c4_amended_ordered_classification (r : HttpResponse) (h : r.statusOk = false) :
    (r.textElems = [] → baseRequest r = .error .httpError)
    ∧ (∀ t ts, r.textElems = t :: ts →
        ((strContains t noDataPhrase = true → baseRequest r = .error .noMatchingData)
        ∧ (strContains t noDataPhrase = false → strContains t dependencyPhrase = true →
            baseRequest r = .error .invalidBusinessParameter)
        ∧ (strContains t noDataPhrase = false → strContains t dependencyPhrase = false →
            strContains t areaPhrase = true → baseRequest r = .error .invalidPSRType)
        ∧ (strContains t noDataPhrase = false → strContains t dependencyPhrase = false →
            strContains t areaPhrase = false → strContains t docLimitPhrase = false →
            strContains t offsetLimitPhrase = false →
            baseRequest r = .error .httpError))) := by
  have hb : baseRequest r = .error (classifyErrorBody r.textElems) := by
    unfold baseRequest
    rw [h]
    simp
  constructor
  · intro he
    rw [hb, he]
    rfl
  · intro t ts hts
    rw [hb, hts]
    refine ⟨?_, ?_, ?_, ?_⟩
    · intro h1
      simp [classifyErrorBody, h1]
    · intro h1 h2
      simp [classifyErrorBody, h1, h2]
    · intro h1 h2 h3
      simp [classifyErrorBody, h1, h2, h3]
    · intro h1 h2 h3 h4 h5
      simp [classifyErrorBody, h1, h2, h3, h4, h5]

/-- C4 witness: the three mapped phrases and the no-phrase fallback, each
at a concrete error body. -/
theorem c4_amended_witness :
    baseRequest ⟨false, "application/xml", "b", ["No matching data found"]⟩ =
      .error .noMatchingData
    ∧ baseRequest ⟨false, "application/xml", "b", ["please check you request against dependency tables"]⟩ =
      .error .invalidBusinessParameter
    ∧ baseRequest ⟨false, "application/xml", "b", ["this psr type is not valid for this area"]⟩ =
      .error .invalidPSRType
    ∧ baseRequest ⟨false, "application/xml", "b", ["some totally different failure"]⟩ =
      .error .httpError := by
  refine ⟨?_, ?_, ?_, ?_⟩
  · exact ((c4_amended_ordered_classification
      ⟨false, "application/xml", "b", ["No matching data found"]⟩ rfl).2
      "No matching data found" [] rfl).1 (by decide)
  · exact (((c4_amended_ordered_classification
      ⟨false, "application/xml", "b", ["please check you request against dependency tables"]⟩ rfl).2
      "please check you request against dependency tables" [] rfl).2.1 (by decide) (by decide))
  · exact (((c4_amended_ordered_classification
      ⟨false, "application/xml", "b", ["this psr type is not valid for this area"]⟩ rfl).2
      "this psr type is not valid for this area" [] rfl).2.2.1 (by decide) (by decide) (by decide))
  · exact (((c4_amended_ordered_classification
      ⟨false, "application/xml", "b", ["some totally different failure"]⟩ rfl).2
      "some totally different failure" [] rfl).2.2.2 (by decide) (by decide) (by decide)
      (by decide) (by decide))

/-- C2 counterexample: a document-limit error message of the shape quoted
by the spec — ending with `requested 150 documents and cannot be
fulfilled as is.` and carrying an allowed value of 100 — is parsed by the
fixed token positions of the code into requested `as` and allowed
`cannot`, not into 150 and 100. -/
theorem c2_counterexample :
    strContains docMsgBad "requested 150 documents and cannot be fulfilled" = true
    ∧ strContains docMsgBad "allowed 100" = true
    ∧ baseRequest ⟨false, "application/xml", "b", [docMsgBad]⟩ =
        .error (.paginationError "as" "cannot") := by
  refine ⟨by decide, by decide, ?_⟩
  rw [baseRequest_on_error]
  have h : classifyErrorBody [docMsgBad] = .paginationError "as" "cannot" := by decide
  rw [h]

/-- C2 amended: on a structured error body containing the document-count
limit phrase (and none of the earlier phrases), `_base_request` raises
`PaginationError` with the requested count read from the second-to-last
space-separated token and the allowed count from the fifth-to-last; on
the offset-variant phrase the requested count is the ninth-to-last token
and the allowed count is the thirtieth-to-last token with its last two
characters stripped.  The counts are 150 and 100 only when the message
places those numerals at exactly these positions. -/
theorem c2_amended_token_positions (t : String) (ts : List String) (ct body : String)
    (h1 : strContains t noDataPhrase = false)
    (h2 : strContains t dependencyPhrase = false)
    (h3 : strContains t areaPhrase = false) :
    (strContains t docLimitPhrase = true → 5 ≤ (spaceTokens t).length →
      baseRequest ⟨false, ct, body, t :: ts⟩ =
        .error (.paginationError
          ((spaceTokens t).getD ((spaceTokens t).length - 2) "")
          ((spaceTokens t).getD ((spaceTokens t).length - 5) "")))
    ∧ (strContains t docLimitPhrase = false → strContains t offsetLimitPhrase = true →
        30 ≤ (spaceTokens t).length →
        baseRequest ⟨false, ct, body, t :: ts⟩ =
          .error (.paginationError
            ((spaceTokens t).getD ((spaceTokens t).length - 9) "")
            (((spaceTokens t).getD ((spaceTokens t).length - 30) "").dropRight 2))) := by
  constructor
  · intro h4 h5
    rw [baseRequest_on_error]
    simp only [classifyErrorBody, h1, h2, h3, h4, Bool.false_eq_true, if_false, if_true]
    have e2 : negTok (spaceTokens t) 2 =
        some ((spaceTokens t).getD ((spaceTokens t).length - 2) "") := by
      unfold negTok
      rw [if_pos (by omega)]
    have e5 : negTok (spaceTokens t) 5 =
        some ((spaceTokens t).getD ((spaceTokens t).length - 5) "") := by
      unfold negTok
      rw [if_pos (by omega)]
    rw [e2, e5]
  · intro h4 h5 h6
    rw [baseRequest_on_error]
    simp only [classifyErrorBody, h1, h2, h3, h4, h5, Bool.false_eq_true, if_false, if_true]
    have e9 : negTok (spaceTokens t) 9 =
        some ((spaceTokens t).getD ((spaceTokens t).length - 9) "") := by
      unfold negTok
      rw [if_pos (by omega)]
    have e30 : negTok (spaceTokens t) 30 =
        some ((spaceTokens t).getD ((spaceTokens t).length - 30) "") := by
      unfold negTok
      rw [if_pos (by omega)]
    rw [e9, e30]

/-- C2 witness: a document-limit message with 100 fifth-to-last and 150
second-to-last parses to requested 150 and allowed 100; an offset-variant
message with 47 tokens parses to requested 750 and allowed 200. -/
theorem c2_amended_witness :
    baseRequest ⟨false, "application/xml", "b", [docMsgGood]⟩ =
      .error (.paginationError "150" "100")
    ∧ baseRequest ⟨false, "application/xml", "b", [offMsgGood]⟩ =
      .error (.paginationError "750" "200") := by
  constructor
  · have h := (c2_amended_token_positions docMsgGood [] "application/xml" "b"
      (by decide) (by decide) (by decide)).1 (by decide) (by decide)
    refine h.trans (congrArg Except.error ?_)
    decide
  · have h := (c2_amended_token_positions offMsgGood [] "application/xml" "b"
      (by decide) (by decide) (by decide)).2 (by decide) (by decide) (by decide)
    refine h.trans (congrArg Except.error ?_)
    decide

/-- Reindexing the rows does not change which rows the unavailability
filter keeps: the filter reads only the event start/end columns, never
the index. -/
theorem unavFilter_reindex (s e : Ts) (f : UnavRow → Ts) :
    ∀ rows : List UnavRow,
      queryUnavailabilityFilter (rows.map (fun r => ⟨f r, r.evStart, r.evEnd⟩)) s e
        = (queryUnavailabilityFilter rows s e).map (fun r => ⟨f r, r.evStart, r.evEnd⟩) := by
  intro rows
  induction rows with
  | nil => rfl
  | cons r rs ih =>
    unfold queryUnavailabilityFilter at ih ⊢
    simp only [List.map_cons, List.filter_cons]
    by_cases hc : (tsLt r.evStart e || tsLt s r.evEnd) = true
    · simp only [hc, if_true, List.map_cons, ih]
    · simp only [hc, Bool.false_eq_true, if_false, ih]

/-- C1 counterexample: with start at hour 96 of 2020 (January 5th 00:00),
`start - YearBegin()` is January 1st 2020 00:00, so
`query_installed_generation_capacity` keeps a parsed row at January 1st
2020 00:00 although it lies before `start` — the returned timestamp range
is not a subset of `[start, end]`. -/
theorem c1_counterexample :
    queryInstalledGenerationCapacityAssemble [(⟨2020, 0⟩, 5)] ⟨2020, 96⟩ ⟨2020, 200⟩ =
      [(⟨2020, 0⟩, 5)]
    ∧ tsLe ⟨2020, 96⟩ ⟨2020, 0⟩ = false := by decide

/-- C1 amended: the truncate-based query operations (such as
`query_day_ahead_prices`) return only timestamps inside the requested
`[start, end]` window, but `query_installed_generation_capacity` only
bounds its rows by `start - YearBegin()` and `end + YearEnd()`, and
`_query_unavailability` keeps exactly the rows whose event start column
is before `end` or whose event end column is after `start`, leaving the
index unconstrained (reindexing the rows never changes which are kept). -/
theorem c1_amended_truncation : ∀ (parsed : Series) (s e : Ts),
    (queryDayAheadPricesAssemble parsed s e).all
      (fun r => tsLe s r.1 && tsLe r.1 e) = true
    ∧ (queryInstalledGenerationCapacityAssemble parsed s e).all
      (fun r => tsLe (subYearBegin s) r.1 && tsLe r.1 (addYearEnd e)) = true
    ∧ (∀ rows : List UnavRow,
        (queryUnavailabilityFilter rows s e).all
          (fun r => tsLt r.evStart e || tsLt s r.evEnd) = true)
    ∧ (∀ (rows : List UnavRow) (f : UnavRow → Ts),
        queryUnavailabilityFilter (rows.map (fun r => ⟨f r, r.evStart, r.evEnd⟩)) s e
          = (queryUnavailabilityFilter rows s e).map (fun r => ⟨f r, r.evStart, r.evEnd⟩)) := by
  intro parsed s e
  refine ⟨?_, ?_, ?_, ?_⟩
  · simp only [queryDayAheadPricesAssemble, truncateSeries, List.all_eq_true,
      List.mem_filter]
    intro r hr
    exact hr.2
  · simp only [queryInstalledGenerationCapacityAssemble, truncateSeries,
      List.all_eq_true, List.mem_filter]
    intro r hr
    exact hr.2
  · intro rows
    simp only [queryUnavailabilityFilter, List.all_eq_true, List.mem_filter]
    intro r hr
    exact hr.2
  · intro rows f
    exact unavFilter_reindex s e f rows

/-- C9: constructing a client with a `None` api_key raises `TypeError`
immediately; any other key is stored, and a fresh session is created
exactly when no session is supplied. -/
theorem c9_client_init : ∀ (sOpt : Option SessionTok) (k : String) (sess : SessionTok)
    (rc rd : Int) (px : Option String) (tmo : Option Int),
    clientInit none sOpt rc rd px tmo = .error (.typeError "API key cannot be None")
    ∧ clientInit (some k) none rc rd px tmo = .ok ⟨k, freshSession, rc, rd, px, tmo⟩
    ∧ clientInit (some k) (some sess) rc rd px tmo = .ok ⟨k, sess, rc, rd, px, tmo⟩ := by
  intro sOpt k sess rc rd px tmo
  exact ⟨rfl, rfl, rfl⟩

/-- C10: a timezone-naive timestamp is formatted from its literal fields
with no conversion and no error, which coincides with the string produced
for the UTC-aware timestamp of the same wall clock. -/
theorem c10_naive_read_as_utc : ∀ w : Int,
    datetimeToStr ⟨w, none⟩ = strftimeYmdH00 w
    ∧ datetimeToStr ⟨w, none⟩ = datetimeToStr ⟨w, some 0⟩ := by
  intro w
  exact ⟨rfl, rfl⟩

/-- Formatting an aware timestamp always formats its UTC instant: the
conversion branch of `_datetime_to_str` subtracts the offset, and the
already-UTC branch subtracts nothing. -/
theorem aware_format_utc (w off : Int) :
    datetimeToStr ⟨w, some off⟩ = strftimeYmdH00 (w - off) := by
  unfold datetimeToStr tzConvertUTC
  by_cases h : off = 0
  · subst h
    simp
  · simp [h]

/-- C8: `_datetime_to_str` yields a twelve-character `YYYYMMDDHH00`
string computed from the UTC instant of the timestamp — an aware
timestamp in any zone is converted to UTC before formatting — and
sub-hour precision only shifts the wall clock within the same UTC hour,
never changing the output and never raising. -/
theorem c8_datetime_to_str_shape (w off : Int) :
    (datetimeToStr ⟨w, some off⟩).length = 12
    ∧ (∃ p, datetimeToStr ⟨w, some off⟩ = p ++ "00")
    ∧ datetimeToStr ⟨w, some off⟩ = strftimeYmdH00 (w - off)
    ∧ (∀ m : Int, 0 ≤ m → m < 60 → (w - off) % 60 = 0 →
        datetimeToStr ⟨w + m, some off⟩ = datetimeToStr ⟨w, some off⟩) := by
  refine ⟨?_, ?_, aware_format_utc w off, ?_⟩
  · rw [aware_format_utc]
    rfl
  · rw [aware_format_utc]
    exact ⟨_, rfl⟩
  · intro m hm0 hm1 hmod
    rw [aware_format_utc, aware_format_utc]
    have h1 : (w + m - off) / 1440 = (w - off) / 1440 := by omega
    have h2 : (w + m - off) % 1440 / 60 = (w - off) % 1440 / 60 := by omega
    simp only [strftimeYmdH00]
    rw [h1, h2]

/-- C8 witness: thirty minutes past an on-the-hour instant format to the
same string. -/
theorem c8_witness :
    ((0:Int) ≤ 30 ∧ (30:Int) < 60 ∧ ((120:Int) - 60) % 60 = 0)
    ∧ datetimeToStr ⟨120 + 30, some 60⟩ = datetimeToStr ⟨120, some 60⟩ :=
  ⟨⟨by decide, by decide, by decide⟩,
    (c8_datetime_to_str_shape 120 60).2.2.2 30 (by decide) (by decide) (by decide)⟩

/-! ## Year-splitting lemmas -/

theorem yearBlocksAux_ne_nil (n : Nat) (s e : Ts) : yearBlocksAux n s e ≠ [] := by
  cases n <;> simp [yearBlocksAux]

theorem yearBlocksAux_length (n : Nat) : ∀ s e : Ts, (yearBlocksAux n s e).length = n + 1 := by
  induction n with
  | zero => intro s e; rfl
  | succ m ih => intro s e; simp [yearBlocksAux, ih]

theorem yearBlocksAux_headFst (n : Nat) (s e : Ts) : headFst (yearBlocksAux n s e) = some s := by
  cases n <;> rfl

theorem yearBlocksAux_lastSnd (n : Nat) : ∀ s e : Ts, lastSnd (yearBlocksAux n s e) = some e := by
  induction n with
  | zero => intro s e; rfl
  | succ m ih =>
    intro s e
    have htail := ih (yearStart (s.year + 1)) e
    cases haux : yearBlocksAux m (yearStart (s.year + 1)) e with
    | nil => exact absurd haux (yearBlocksAux_ne_nil m _ e)
    | cons q rest =>
      rw [haux] at htail
      simp only [yearBlocksAux, haux, lastSnd]
      exact htail

theorem yearBlocksAux_chained (n : Nat) : ∀ s e : Ts, blocksChained (yearBlocksAux n s e) = true := by
  induction n with
  | zero => intro s e; rfl
  | succ m ih =>
    intro s e
    cases haux : yearBlocksAux m (yearStart (s.year + 1)) e with
    | nil => exact absurd haux (yearBlocksAux_ne_nil m _ e)
    | cons q rest =>
      have hq : headFst (q :: rest) = some (yearStart (s.year + 1)) := by
        rw [← haux]; exact yearBlocksAux_headFst m _ e
      have hq1 : q.1 = yearStart (s.year + 1) := by
        simpa [headFst] using hq
      have hrest : blocksChained (q :: rest) = true := by
        rw [← haux]; exact ih _ e
      simp [yearBlocksAux, haux, blocksChained, hq1, hrest]

theorem yearBlocksAux_allStarts (n : Nat) : ∀ (y : Int) (e : Ts),
    allStartsAligned (yearBlocksAux n (yearStart y) e) = true := by
  induction n with
  | zero => intro y e; rfl
  | succ m ih =>
    intro y e
    simp only [yearBlocksAux, allStartsAligned, yearStart]
    exact ih (y + 1) e

theorem yearBlocksAux_startsButFirst (n : Nat) (s e : Ts) :
    startsAlignedButFirst (yearBlocksAux n s e) = true := by
  cases n with
  | zero => rfl
  | succ m =>
    show allStartsAligned ((yearBlocksAux (m + 1) s e).drop 1) = true
    simp only [yearBlocksAux, List.drop_succ_cons, List.drop_zero]
    exact yearBlocksAux_allStarts m (s.year + 1) e

theorem yearBlocksAux_endsButLast (n : Nat) : ∀ s e : Ts,
    endsAlignedButLast (yearBlocksAux n s e) = true := by
  induction n with
  | zero => intro s e; rfl
  | succ m ih =>
    intro s e
    cases haux : yearBlocksAux m (yearStart (s.year + 1)) e with
    | nil => exact absurd haux (yearBlocksAux_ne_nil m _ e)
    | cons q rest =>
      have hrest : endsAlignedButLast (q :: rest) = true := by
        rw [← haux]; exact ih _ e
      simp only [yearBlocksAux, haux, endsAlignedButLast]
      simp [yearStart, hrest]

/-- C5: for a window inside one calendar year the splitter produces one
sub-window, and in general exactly one sub-window per calendar year the
half-open window intersects; the first sub-window starts at `start`, the
last ends at `end`, consecutive sub-windows abut, and every interior
boundary is a January 1st 00:00 — the orchestrator then fetches the
blocks in this chronological order and concatenates the fragments
(`yearLimitedFetch`). -/
theorem c5_year_splitting (s e : Ts) (h : tsLt s e = true) :
    (yearBlocks s e).length = spannedYears s e
    ∧ headFst (yearBlocks s e) = some s
    ∧ lastSnd (yearBlocks s e) = some e
    ∧ blocksChained (yearBlocks s e) = true
    ∧ startsAlignedButFirst (yearBlocks s e) = true
    ∧ endsAlignedButLast (yearBlocks s e) = true := by
  have hs : 1 ≤ spannedYears s e := by
    unfold tsLt at h
    simp only [Bool.or_eq_true, Bool.and_eq_true, decide_eq_true_eq] at h
    unfold spannedYears
    by_cases he : e.hourOfYear = 0
    · rw [if_pos he]
      have hy : s.year < e.year := by
        rcases h with h | ⟨h1, h2⟩
        · exact h
        · omega
      omega
    · rw [if_neg he]
      omega
  unfold yearBlocks
  obtain ⟨k, hk⟩ : ∃ k, spannedYears s e = k + 1 := ⟨spannedYears s e - 1, by omega⟩
  rw [hk]
  simp only [Nat.add_sub_cancel]
  exact ⟨yearBlocksAux_length k s e, yearBlocksAux_headFst k s e,
    yearBlocksAux_lastSnd k s e, yearBlocksAux_chained k s e,
    yearBlocksAux_startsButFirst k s e, yearBlocksAux_endsButLast k s e⟩

/-- C5 witness: a window from hour 5 of 2020 to hour 7 of 2022 splits
into three chronological sub-windows with aligned interior boundaries. -/
theorem c5_witness :
    tsLt ⟨2020, 5⟩ ⟨2022, 7⟩ = true
    ∧ ((yearBlocks ⟨2020, 5⟩ ⟨2022, 7⟩).length = spannedYears ⟨2020, 5⟩ ⟨2022, 7⟩
      ∧ headFst (yearBlocks ⟨2020, 5⟩ ⟨2022, 7⟩) = some ⟨2020, 5⟩
      ∧ lastSnd (yearBlocks ⟨2020, 5⟩ ⟨2022, 7⟩) = some ⟨2022, 7⟩
      ∧ blocksChained (yearBlocks ⟨2020, 5⟩ ⟨2022, 7⟩) = true
      ∧ startsAlignedButFirst (yearBlocks ⟨2020, 5⟩ ⟨2022, 7⟩) = true
      ∧ endsAlignedButLast (yearBlocks ⟨2020, 5⟩ ⟨2022, 7⟩) = true) :=
  ⟨by decide, c5_year_splitting ⟨2020, 5⟩ ⟨2022, 7⟩ (by decide)⟩

/-- C6: against the simulated Transport answering rate-limited (250, 100)
at offset 0, rate-limited (150, 100) at offset 100 and success at offset
200, the pagination loop with page ceiling 100 issues exactly the three
offsets 0, 100, 200 against the same window and merges the three parsed
fragments in order. -/
theorem c6_offset_pagination :
    queryContractedReservePricesPaged simTransport 10 =
      some ([0, 100, 200], simFragA ++ simFragB ++ simFragC) := by decide

/-! ## Import-loop lemmas -/

theorem collectImports_skip (flows : String → Except FlowErr Series) (n : String)
    (hn : flows n = .error .noMatchingData) :
    ∀ pre post, collectImports flows (pre ++ n :: post) = collectImports flows (pre ++ post) := by
  intro pre
  induction pre with
  | nil =>
    intro post
    simp only [List.nil_append, collectImports, hn]
  | cons p ps ih =>
    intro post
    simp only [List.cons_append]
    cases hf : flows p with
    | error err =>
      cases err with
      | noMatchingData =>
        simp only [collectImports, hf]
        exact ih post
      | other c =>
        simp only [collectImports, hf]
      | emptyConcat =>
        simp only [collectImports, hf]
    | ok ser =>
      simp only [collectImports, hf]
      rw [ih post]

theorem collect_names_ok (flows : String → Except FlowErr Series) :
    ∀ ns cols, collectImports flows ns = .ok cols →
      cols.map Prod.fst = ns.filter (fun m => okNeighbour flows m) := by
  intro ns
  induction ns with
  | nil =>
    intro cols h
    simp only [collectImports] at h
    injection h with h'
    subst h'
    rfl
  | cons n ns ih =>
    intro cols h
    simp only [collectImports] at h
    cases hf : flows n with
    | error err =>
      have hk : okNeighbour flows n = false := by simp [okNeighbour, hf]
      cases err with
      | noMatchingData =>
        rw [hf] at h
        simp only [List.filter_cons, hk, Bool.false_eq_true, if_false]
        exact ih cols h
      | other c =>
        rw [hf] at h
        exact absurd h (by simp)
      | emptyConcat =>
        rw [hf] at h
        exact absurd h (by simp)
    | ok ser =>
      rw [hf] at h
      cases hc : collectImports flows ns with
      | error e2 =>
        rw [hc] at h
        exact absurd h (by simp)
      | ok cols2 =>
        rw [hc] at h
        injection h with h'
        subst h'
        have hk : okNeighbour flows n = true := by simp [okNeighbour, hf]
        simp only [List.map_cons, List.filter_cons, hk, if_true]
        rw [ih cols2 hc]

theorem queryImport_empty (flows : String → Except FlowErr Series) (ns : List String)
    (s e : Ts) (hc : collectImports flows ns = .ok []) :
    queryImport flows ns s e = .error .emptyConcat := by
  unfold queryImport
  rw [hc]

theorem queryImport_ok_cons (flows : String → Except FlowErr Series) (ns : List String)
    (s e : Ts) (c : String × Series) (cs : List (String × Series))
    (hc : collectImports flows ns = .ok (c :: cs)) :
    queryImport flows ns s e =
      .ok ((dropAllZeroColsAligned (c :: cs)).map
        (fun col => (col.1, truncateSeries s e col.2))) := by
  unfold queryImport
  rw [hc]

theorem map_fst_after_truncate (s e : Ts) :
    ∀ l : List (String × Series),
      (l.map (fun col => (col.1, truncateSeries s e col.2))).map Prod.fst = l.map Prod.fst := by
  intro l
  induction l with
  | nil => rfl
  | cons a as ih => simp [ih]

/-- C7 counterexample: with neighbour FR answering a non-zero series at
hour 1 and neighbour NL answering the all-zero series at hour 2, the
concat-aligned frame gives NL a NaN at hour 1, `NaN != 0` is `True`, and
the NL column survives into the final table although every value it
carries is zero — refuting the claim that columns consisting only of
zeros are dropped. -/
theorem c7_counterexample :
    queryImport witnessFlows ["FR", "DE", "NL"] ⟨2020, 0⟩ ⟨2020, 10⟩ =
      .ok [("FR", [(⟨2020, 1⟩, 3)]), ("NL", [(⟨2020, 2⟩, 0)])]
    ∧ ([((⟨2020, 2⟩ : Ts), (0 : Int))].all (fun r => r.2 = 0)) = true := by decide

/-- C7 amended: in the neighbour loop of `query_import`, a neighbour
answering `NoMatchingDataError` is skipped and the loop continues —
removing it from the neighbour list leaves the result unchanged; the
collected columns are named after exactly the neighbours, in order, that
returned data; and the zero-column drop runs on the concat-aligned frame,
where a timestamp missing from a column is NaN and compares as non-zero,
so a column is dropped precisely when it fails the aligned any-non-zero
test (it covers the whole aligned index with only zeros); when every
neighbour was skipped the empty concatenation raises `ValueError`. -/
theorem c7_import_skip_and_columns (flows : String → Except FlowErr Series) (s e : Ts) :
    (∀ pre post n, flows n = .error .noMatchingData →
      queryImport flows (pre ++ n :: post) s e = queryImport flows (pre ++ post) s e)
    ∧ (∀ ns cols2, collectImports flows ns = .ok cols2 →
        cols2.map Prod.fst = ns.filter (fun m => okNeighbour flows m))
    ∧ (∀ ns cols2 cols, collectImports flows ns = .ok cols2 →
        queryImport flows ns s e = .ok cols →
        cols.map Prod.fst =
          (cols2.filter (fun c => colKeptAligned (unionIndex cols2) c.2)).map Prod.fst) := by
  refine ⟨?_, ?_, ?_⟩
  · intro pre post n hn
    unfold queryImport
    rw [collectImports_skip flows n hn pre post]
  · intro ns cols2 hc
    exact collect_names_ok flows ns cols2 hc
  · intro ns cols2 cols hc h
    cases cols2 with
    | nil =>
      rw [queryImport_empty flows ns s e hc] at h
      exact absurd h (by simp)
    | cons c cs =>
      rw [queryImport_ok_cons flows ns s e c cs hc] at h
      injection h with h'
      subst h'
      simp only [dropAllZeroColsAligned]
      exact map_fst_after_truncate s e _

/-- C7 witness: removing the no-data neighbour DE leaves the result
unchanged; the collected columns are FR and NL; the all-zero NL column
survives the aligned test when its index misses a timestamp of FR, and is
dropped when the two columns share their index. -/
theorem c7_witness :
    queryImport witnessFlows (["FR"] ++ "DE" :: ["NL"]) ⟨2020, 0⟩ ⟨2020, 10⟩ =
      queryImport witnessFlows (["FR"] ++ ["NL"]) ⟨2020, 0⟩ ⟨2020, 10⟩
    ∧ [("FR", [((⟨2020, 1⟩ : Ts), (3 : Int))]), ("NL", [((⟨2020, 2⟩ : Ts), (0 : Int))])].map
        Prod.fst = ["FR", "DE", "NL"].filter (fun m => okNeighbour witnessFlows m)
    ∧ [("FR", [((⟨2020, 1⟩ : Ts), (3 : Int))]), ("NL", [((⟨2020, 2⟩ : Ts), (0 : Int))])].map
        Prod.fst =
        ([("FR", [((⟨2020, 1⟩ : Ts), (3 : Int))]), ("NL", [((⟨2020, 2⟩ : Ts), (0 : Int))])].filter
          (fun c => colKeptAligned
            (unionIndex [("FR", [((⟨2020, 1⟩ : Ts), (3 : Int))]),
              ("NL", [((⟨2020, 2⟩ : Ts), (0 : Int))])]) c.2)).map Prod.fst
    ∧ [("FR", [((⟨2020, 1⟩ : Ts), (3 : Int))])].map Prod.fst =
        ([("FR", [((⟨2020, 1⟩ : Ts), (3 : Int))]), ("NL", [((⟨2020, 1⟩ : Ts), (0 : Int))])].filter
          (fun c => colKeptAligned
            (unionIndex [("FR", [((⟨2020, 1⟩ : Ts), (3 : Int))]),
              ("NL", [((⟨2020, 1⟩ : Ts), (0 : Int))])]) c.2)).map Prod.fst := by
  have h := c7_import_skip_and_columns witnessFlows ⟨2020, 0⟩ ⟨2020, 10⟩
  have h2 := c7_import_skip_and_columns witnessFlows2 ⟨2020, 0⟩ ⟨2020, 10⟩
  refine ⟨h.1 ["FR"] ["NL"] "DE" (by decide),
    h.2.1 ["FR", "DE", "NL"] _ (by decide),
    h.2.2 ["FR", "DE", "NL"] _ _ (by decide) (by decide),
    h2.2.2 ["FR", "NL"] _ _ (by decide) (by decide)⟩

end Entsoe
